import Mathlib

/-!
# Verification of the cloudflare-token-manager request pipeline

Shallow embedding, in Lean 4, of the request validation, rate-limiting and
error-categorization pipeline of the `cloudflare-token-manager` worker:

* `src/lib/errors.ts`      — error taxonomy and `categorizeError`
* `src/lib/rate-limit.ts`  — KV-backed sliding-window `checkRateLimit`,
                             `getClientId`, `rateLimitHeaders`
* `src/lib/expiration.ts`  — `parseExpiresIn`
* `src/lib/validation.ts`  — `jsonSchemaToZod` / `validateArgs`
* `src/index.ts`           — `secureCompare`, the `/mcp` route and
                             `handleMCPRequest`
* `src/tools.ts`           — `TOOLS` catalog and the `executeTool` prefix
                             (validation + rate-limit gate)

Conventions: JS timestamps (`Date.now()`) are `Int` milliseconds; JS strings
are Lean `String`; thrown exceptions become `Except`/explicit outcome types;
the Workers KV namespace is an explicit association list threaded through the
functions, with boolean fault-injection flags for a throwing read / write.
-/

/-! ## Error model (`src/lib/errors.ts`) -/

/-- The `ErrorCode` constant object of `errors.ts`. -/
inductive ErrorCode where
  | NETWORK_ERROR
  | TIMEOUT_ERROR
  | SERVICE_UNAVAILABLE
  | VALIDATION_ERROR
  | NOT_FOUND
  | UNAUTHORIZED
  | RATE_LIMITED
  | API_ERROR
  | CLOUDFLARE_API_ERROR
  | TOOL_NOT_FOUND
  | TOOL_EXECUTION_ERROR
  | UNKNOWN_ERROR
deriving DecidableEq, Repr

/-- Which concrete `class` constructed an `McpError` value.  This models the
JavaScript prototype identity that `instanceof` checks: `new McpError(...)`
yields `.base` even when its `code` is `RATE_LIMITED`. -/
inductive ErrClass where
  | base
  | network
  | timeout
  | validation
  | rateLimit
  | cloudflareApi
deriving DecidableEq, Repr

/-- The `McpError` class of `errors.ts` (base class plus the subclass fields
relevant to the claims).  `details` is modelled as an optional list of
string/integer entries (the only details the pipeline itself constructs is
`{ retryAfter }`); `cause` is modelled by the message of the causing `Error`,
which is all the pipeline ever stores there. -/
structure McpError where
  cls : ErrClass
  code : ErrorCode
  message : String
  details : Option (List (String × Int))
  correlationId : Option String
  retryable : Bool
  retryAfter : Option Int
  cause : Option String
deriving DecidableEq, Repr

/-- Constructor `new NetworkError(message, {correlationId, cause})`. -/
def mkNetworkError (message : String) (correlationId : Option String)
    (cause : Option String) : McpError :=
  { cls := .network, code := .NETWORK_ERROR, message := message, details := none,
    correlationId := correlationId, retryable := true, retryAfter := none,
    cause := cause }

/-- Constructor `new TimeoutError(message, {correlationId, cause})`. -/
def mkTimeoutError (message : String) (correlationId : Option String)
    (cause : Option String) : McpError :=
  { cls := .timeout, code := .TIMEOUT_ERROR, message := message, details := none,
    correlationId := correlationId, retryable := true, retryAfter := none,
    cause := cause }

/-- Constructor `new ValidationError(message)` (no details, no correlation id). -/
def mkValidationError (message : String) : McpError :=
  { cls := .validation, code := .VALIDATION_ERROR, message := message,
    details := none, correlationId := none, retryable := false,
    retryAfter := none, cause := none }

/-- Constructor `new RateLimitError(message, {retryAfter, correlationId})`.  The `details`
map carries `retryAfter` only when that option is truthy (present and
non-zero), exactly as `options?.retryAfter ? {retryAfter} : undefined`. -/
def mkRateLimitError (message : String) (retryAfter : Option Int)
    (correlationId : Option String) : McpError :=
  { cls := .rateLimit, code := .RATE_LIMITED, message := message,
    details := match retryAfter with
      | some n => if n ≠ 0 then some [("retryAfter", n)] else none
      | none => none,
    correlationId := correlationId, retryable := true,
    retryAfter := retryAfter, cause := none }

/-- Constructor `new CloudflareApiError(message, {correlationId, cause})` as built by
`categorizeError` (no status code supplied, hence `retryable = false`). -/
def mkCloudflareApiError (message : String) (correlationId : Option String)
    (cause : Option String) : McpError :=
  { cls := .cloudflareApi, code := .CLOUDFLARE_API_ERROR, message := message,
    details := none, correlationId := correlationId, retryable := false,
    retryAfter := none, cause := cause }

/-- An arbitrary JavaScript thrown value, as discriminated by
`categorizeError`. -/
inductive JsValue where
  | mcpErr (e : McpError)
  | typeErr (message : String)
  | domAbortErr
  | genericErr (message : String)
  | strVal (s : String)
  | otherVal
deriving DecidableEq, Repr

/-- Whether the first list is a leading segment of the second (Boolean). -/
def charsStartsWith : List Char → List Char → Bool
  | [], _ => true
  | _ :: _, [] => false
  | c :: cs, d :: ds => c == d && charsStartsWith cs ds

/-- Whether `hay` contains `needle` as a contiguous run (Boolean). -/
def charsIncludes (hay needle : List Char) : Bool :=
  match hay with
  | [] => charsStartsWith needle []
  | _ :: tl => charsStartsWith needle hay || charsIncludes tl needle

/-- JavaScript `haystack.includes(needle)`. -/
def strIncludes (hay needle : String) : Bool :=
  charsIncludes hay.data needle.data

/-- JavaScript `s.toLowerCase()` (ASCII case folding; every needle probed by
`categorizeError` is ASCII). -/
def toLowerStr (s : String) : String :=
  String.mk (s.data.map Char.toLower)

/-- Function `categorizeError(error, correlationId)` from `errors.ts` lines 178–234.
Note that the already-categorized branch, when a correlation id is supplied
and absent from the error, rebuilds the error with `new McpError(...)`: the
copy is a *base* `McpError`, so subclass identity (and the `retryAfter`
subclass field) is not preserved. -/
def categorizeError (error : JsValue) (correlationId : Option String) : McpError :=
  match error with
  | .mcpErr e =>
    match correlationId, e.correlationId with
    | some cid, none =>
      { cls := .base, code := e.code, message := e.message, details := e.details,
        correlationId := some cid, retryable := e.retryable, retryAfter := none,
        cause := e.cause }
    | _, _ => e
  | .typeErr message => mkNetworkError message correlationId (some message)
  | .domAbortErr => mkTimeoutError "Request timed out" correlationId (some "AbortError")
  | .genericErr message =>
    let msg := toLowerStr message
    if strIncludes msg "timeout" || strIncludes msg "timed out" then
      mkTimeoutError message correlationId (some message)
    else if strIncludes msg "network" || strIncludes msg "fetch" ||
        strIncludes msg "connection" then
      mkNetworkError message correlationId (some message)
    else if strIncludes msg "rate limit" then
      mkRateLimitError message none correlationId
    else if strIncludes msg "cloudflare api" then
      mkCloudflareApiError message correlationId (some message)
    else
      { cls := .base, code := .UNKNOWN_ERROR, message := message, details := none,
        correlationId := correlationId, retryable := false, retryAfter := none,
        cause := some message }
  | .strVal s =>
    { cls := .base, code := .UNKNOWN_ERROR, message := s, details := none,
      correlationId := correlationId, retryable := false, retryAfter := none,
      cause := none }
  | .otherVal =>
    { cls := .base, code := .UNKNOWN_ERROR, message := "An unknown error occurred",
      details := none, correlationId := correlationId, retryable := false,
      retryAfter := none, cause := none }

/-! ## Constant-time comparison (`src/index.ts` lines 688–696) -/

/-- Node's `crypto.timingSafeEqual` on two equal-length byte buffers: a
constant-time fold over the zipped bytes with no early exit.  (`index.ts` only
ever calls it on equal-length buffers.) -/
def timingSafeEqual (a b : List Char) : Bool :=
  (a.zip b).all (fun p => p.1 == p.2)

/-- Function `secureCompare(a, b)` from `index.ts`: on a length mismatch it performs a
dummy self-comparison (pure timing ballast, no observable value) and returns
`false`; otherwise it compares the two buffers with `timingSafeEqual`. -/
def secureCompare (a b : String) : Bool :=
  if a.length != b.length then false
  else timingSafeEqual a.data b.data

theorem timingSafeEqual_eq_of_length {a b : List Char} (h : a.length = b.length) :
    timingSafeEqual a b = (a == b) := by
  induction a generalizing b with
  | nil => cases b with
    | nil => rfl
    | cons d ds => simp at h
  | cons c cs ih =>
    cases b with
    | nil => simp at h
    | cons d ds =>
      simp only [List.length_cons, Nat.succ.injEq] at h
      simp only [timingSafeEqual, List.zip_cons_cons, List.all_cons, List.cons_beq_cons]
      cases hcd : (c == d) with
      | false => simp [hcd]
      | true =>
        simpa [hcd, timingSafeEqual] using ih h

theorem secureCompare_eq_true_iff (a b : String) :
    secureCompare a b = true ↔ a = b := by
  unfold secureCompare
  by_cases hlen : a.length = b.length
  · have hdl : a.data.length = b.data.length := hlen
    rw [hlen]
    simp only [bne_self_eq_false, Bool.false_eq_true, if_false,
      timingSafeEqual_eq_of_length hdl]
    constructor
    · intro hab
      have : a.data = b.data := by
        simpa using hab
      exact String.ext this
    · intro hab
      subst hab
      simp
  · have : (a.length != b.length) = true := by
      simpa [bne_iff_ne] using hlen
    simp only [this, if_true]
    constructor
    · intro h
      exact absurd h (by simp)
    · intro hab
      exact absurd (congrArg String.length hab) hlen

/-- C4: The authenticator's comparison is exactly string equality:
`secureCompare(x, x)` is `true` for every string `x`, and `secureCompare(x, y)`
is `false` for every pair of distinct strings, whether or not the two strings
have the same length. -/
theorem c4_secureCompare_is_string_equality :
    ∀ x y : String, secureCompare x x = true ∧ (x ≠ y → secureCompare x y = false) := by
  intro x y
  refine ⟨(secureCompare_eq_true_iff x x).mpr rfl, fun hne => ?_⟩
  cases h : secureCompare x y with
  | false => rfl
  | true => exact absurd ((secureCompare_eq_true_iff x y).mp h) hne

/-- Witness for C4 at concrete inputs: equal strings compare `true`, a
same-length mismatch and a different-length mismatch both compare `false`. -/
theorem c4_secureCompare_is_string_equality_witness :
    secureCompare "hunter2" "hunter2" = true ∧
    secureCompare "hunter2" "Hunter2" = false ∧
    secureCompare "hunter2" "hunter21" = false :=
  ⟨(c4_secureCompare_is_string_equality "hunter2" "hunter2").1,
   (c4_secureCompare_is_string_equality "hunter2" "Hunter2").2 (by decide),
   (c4_secureCompare_is_string_equality "hunter2" "hunter21").2 (by decide)⟩

/-- C5: `categorizeError` is idempotent on already-classified errors: with
no correlation id supplied it returns the error unchanged, and supplying a
correlation id to an error lacking one returns a classified error with the
same code, message, details and retryable flag, with the id attached. -/
theorem c5_categorizeError_idempotent :
    ∀ (e : McpError) (cid : String),
      categorizeError (.mcpErr e) none = e ∧
      (e.correlationId = none →
        (categorizeError (.mcpErr e) (some cid)).code = e.code ∧
        (categorizeError (.mcpErr e) (some cid)).message = e.message ∧
        (categorizeError (.mcpErr e) (some cid)).details = e.details ∧
        (categorizeError (.mcpErr e) (some cid)).retryable = e.retryable ∧
        (categorizeError (.mcpErr e) (some cid)).correlationId = some cid) := by
  intro e cid
  constructor
  · cases h : e.correlationId <;> simp [categorizeError, h]
  · intro h
    simp [categorizeError, h]

/-- Witness for C5 at a concrete already-classified error lacking a
correlation id. -/
theorem c5_categorizeError_idempotent_witness :
    categorizeError (.mcpErr (mkValidationError "bad input")) none =
      mkValidationError "bad input" ∧
    (categorizeError (.mcpErr (mkValidationError "bad input")) (some "ctm-1-a")).code =
      (mkValidationError "bad input").code ∧
    (categorizeError (.mcpErr (mkValidationError "bad input")) (some "ctm-1-a")).correlationId =
      some "ctm-1-a" := by
  have h := c5_categorizeError_idempotent (mkValidationError "bad input") "ctm-1-a"
  have h2 := h.2 rfl
  exact ⟨h.1, h2.1, h2.2.2.2.2⟩

/-! ## Sliding-window rate limiter (`src/lib/rate-limit.ts`) -/

/-- The value stored under a rate-limit key in the `RATE_LIMIT_KV` namespace
(validated on read by `RateLimitDataSchema.safeParse`). -/
structure RateLimitData where
  count : Nat
  timestamps : List Int
  version : Nat
deriving DecidableEq, Repr

/-- Per-operation rate-limit configuration. -/
structure RateLimitConfig where
  requests : Nat
  windowSeconds : Nat
deriving DecidableEq, Repr

/-- The `RATE_LIMITS` table: `'token-ops'` gets 10 requests / 60 s, everything
else falls back to the `default` entry of 100 requests / 60 s. -/
def RATE_LIMITS (operation : String) : RateLimitConfig :=
  if operation = "token-ops" then { requests := 10, windowSeconds := 60 }
  else { requests := 100, windowSeconds := 60 }

/-- The KV namespace, modelled as an association list from key to the parsed
stored value.  A key that is absent, or whose stored JSON fails
`RateLimitDataSchema.safeParse`, both read back as `none`. -/
def KVStore : Type := List (String × RateLimitData)

/-- KV `get` (already composed with `safeParse`: missing and invalid both
give `none`). -/
def storeGet (store : KVStore) (key : String) : Option RateLimitData :=
  match store with
  | [] => none
  | (k, v) :: rest => if k = key then some v else storeGet rest key

/-- KV `put` for a key (replacing any previous value). -/
def storeSet (store : KVStore) (key : String) (v : RateLimitData) : KVStore :=
  match store with
  | [] => [(key, v)]
  | (k, w) :: rest =>
    if k = key then (k, v) :: rest else (k, w) :: storeSet rest key v

/-- The key `` `ratelimit:${operation}:${clientId}` ``. -/
def kvKey (operation clientId : String) : String :=
  "ratelimit:" ++ operation ++ ":" ++ clientId

/-- The record returned by `checkRateLimit`. -/
structure RLOutcome where
  allowed : Bool
  remaining : Int
  resetAt : Int
deriving DecidableEq, Repr

/-- Function `checkRateLimit(env, operation, clientId)` from `rate-limit.ts` lines
27–75, for a configured KV namespace.  `now` is `Date.now()`; the store is
explicit and the updated store is returned alongside the result.
`readThrows` injects a fault into the KV `get` call: that call is *not*
wrapped in any `try`, so a throwing read propagates out of `checkRateLimit`
(modelled as `Except.error ()`).  `writeThrows` injects a fault into the KV
`put` call, which *is* wrapped in a `try` that only logs: the store is left
unwritten and the function still returns normally. -/
def checkRateLimit (operation clientId : String) (store : KVStore)
    (readThrows writeThrows : Bool) (now : Int) :
    Except Unit (RLOutcome × KVStore) :=
  let config := RATE_LIMITS operation
  let key := kvKey operation clientId
  let windowStart := now - (config.windowSeconds : Int) * 1000
  if readThrows then .error () else
  let stored := storeGet store key
  let version := (match stored with | some d => d.version | none => 0) + 1
  let timestamps :=
    (match stored with | some d => d.timestamps | none => ([] : List Int)).filter
      (fun ts => windowStart < ts)
  let remaining : Int := max 0 ((config.requests : Int) - timestamps.length)
  let resetAt : Int :=
    match timestamps with
    | t :: _ => t + (config.windowSeconds : Int) * 1000
    | [] => now + (config.windowSeconds : Int) * 1000
  if timestamps.length ≥ config.requests then
    .ok ({ allowed := false, remaining := 0, resetAt := resetAt }, store)
  else
    let timestamps := timestamps ++ [now]
    let store' :=
      if writeThrows then store
      else storeSet store key
        { count := timestamps.length, timestamps := timestamps, version := version }
    .ok ({ allowed := true, remaining := remaining - 1, resetAt := resetAt }, store')

/-- Run a sequence of fault-free `checkRateLimit` calls at the given times,
threading the store; collects the outcomes in order. -/
def runRateLimitCalls (operation clientId : String) (times : List Int)
    (store : KVStore) : List RLOutcome × KVStore :=
  match times with
  | [] => ([], store)
  | t :: ts =>
    match checkRateLimit operation clientId store false false t with
    | .error _ => ([], store)
    | .ok (r, store') =>
      let (rs, finalStore) := runRateLimitCalls operation clientId ts store'
      (r :: rs, finalStore)

/-- The stored timestamp list under a rate-limit key (empty when the key is
missing or its stored value is invalid). -/
def rlStoredTimestamps (store : KVStore) (operation clientId : String) : List Int :=
  match storeGet store (kvKey operation clientId) with
  | some d => d.timestamps
  | none => ([] : List Int)

/-- The stored version counter under a rate-limit key (0 when missing). -/
def rlStoredVersion (store : KVStore) (operation clientId : String) : Nat :=
  match storeGet store (kvKey operation clientId) with
  | some d => d.version
  | none => 0

/-- The timestamps surviving the window filter performed by `checkRateLimit`:
those strictly newer than `now − windowSeconds·1000`. -/
def rlSurvivors (store : KVStore) (operation clientId : String) (now : Int) : List Int :=
  (rlStoredTimestamps store operation clientId).filter
    (fun ts => now - ((RATE_LIMITS operation).windowSeconds : Int) * 1000 < ts)

/-- The `resetAt` value computed by `checkRateLimit`: first surviving
timestamp plus the window, or `now` plus the window when none survive. -/
def rlResetAt (store : KVStore) (operation clientId : String) (now : Int) : Int :=
  match rlSurvivors store operation clientId now with
  | t :: _ => t + ((RATE_LIMITS operation).windowSeconds : Int) * 1000
  | [] => now + ((RATE_LIMITS operation).windowSeconds : Int) * 1000

/-- Closed-form characterization of a fault-free-read `checkRateLimit` call. -/
theorem checkRateLimit_eq (operation clientId : String) (store : KVStore)
    (writeThrows : Bool) (now : Int) :
    checkRateLimit operation clientId store false writeThrows now =
      (if (rlSurvivors store operation clientId now).length ≥ (RATE_LIMITS operation).requests then
        .ok ({ allowed := false, remaining := 0,
               resetAt := rlResetAt store operation clientId now }, store)
      else
        .ok ({ allowed := true,
               remaining := max 0 (((RATE_LIMITS operation).requests : Int) -
                 (rlSurvivors store operation clientId now).length) - 1,
               resetAt := rlResetAt store operation clientId now },
             if writeThrows then store
             else storeSet store (kvKey operation clientId)
               { count := (rlSurvivors store operation clientId now ++ [now]).length,
                 timestamps := rlSurvivors store operation clientId now ++ [now],
                 version := rlStoredVersion store operation clientId + 1 })) := by
  unfold checkRateLimit rlSurvivors rlResetAt rlStoredTimestamps rlStoredVersion
  rfl

theorem storeGet_storeSet_self (store : KVStore) (key : String) (v : RateLimitData) :
    storeGet (storeSet store key v) key = some v := by
  induction store with
  | nil => simp [storeSet, storeGet]
  | cons kv rest ih =>
    obtain ⟨k, w⟩ := kv
    by_cases hk : k = key
    · simp [storeSet, storeGet, hk]
    · simp [storeSet, storeGet, hk, ih]

theorem storeGet_storeSet_ne (store : KVStore) (key k : String) (v : RateLimitData)
    (hne : k ≠ key) : storeGet (storeSet store key v) k = storeGet store k := by
  have hke : key ≠ k := Ne.symm hne
  induction store with
  | nil => simp [storeSet, storeGet, hke]
  | cons kv rest ih =>
    obtain ⟨k', w⟩ := kv
    by_cases hk : k' = key
    · subst hk
      simp [storeSet, storeGet, hke]
    · simp [storeSet, storeGet, hk, ih]

theorem kvKey_ne_of_operation_ne (operation operation' clientId : String)
    (h : operation' ≠ operation) : kvKey operation' clientId ≠ kvKey operation clientId := by
  intro heq
  apply h
  have hdata := congrArg String.data heq
  simp only [kvKey, String.data_append] at hdata
  have h1 := List.append_cancel_right hdata
  have h2 := List.append_cancel_right h1
  exact String.ext (List.append_cancel_left h2)

theorem kvKey_ne_of_clientId_ne (operation clientId clientId' : String)
    (h : clientId' ≠ clientId) : kvKey operation clientId' ≠ kvKey operation clientId := by
  intro heq
  apply h
  have hdata := congrArg String.data heq
  simp only [kvKey, String.data_append] at hdata
  exact String.ext (List.append_cancel_left hdata)

/-- C2: `checkRateLimit` is a per-(operation, client) sliding window: it
drops stored timestamps at or below `now − window`; at or above the maximum it
rejects with `remaining = 0` and `resetAt` = oldest surviving timestamp plus
the window (the head of the surviving list, which is its minimum whenever the
stored list is sorted — as every list the limiter itself writes is); below the
maximum it admits with `remaining = max − newCount`, appending `now` and
bumping the version; keys of other clients or operation classes are distinct
and untouched; with no survivors `resetAt = now + window`; and from a fresh
key under the `token-ops` limit of 10 per 60 s, eleven calls within the
window are admitted with `remaining` 9,8,…,0 and then rejected with 0. -/
theorem c2_checkRateLimit_sliding_window :
    ∀ (operation clientId : String) (store : KVStore) (now : Int),
      ((rlSurvivors store operation clientId now).length ≥ (RATE_LIMITS operation).requests →
        checkRateLimit operation clientId store false false now =
          .ok ({ allowed := false, remaining := 0,
                 resetAt := rlResetAt store operation clientId now }, store)) ∧
      ((rlSurvivors store operation clientId now).length < (RATE_LIMITS operation).requests →
        checkRateLimit operation clientId store false false now =
          .ok ({ allowed := true,
                 remaining := ((RATE_LIMITS operation).requests : Int) -
                   ((rlSurvivors store operation clientId now).length + 1),
                 resetAt := rlResetAt store operation clientId now },
               storeSet store (kvKey operation clientId)
                 { count := (rlSurvivors store operation clientId now).length + 1,
                   timestamps := rlSurvivors store operation clientId now ++ [now],
                   version := rlStoredVersion store operation clientId + 1 })) ∧
      ((rlStoredTimestamps store operation clientId).Sorted (· ≤ ·) →
        rlSurvivors store operation clientId now ≠ [] →
        ∃ t0, (rlSurvivors store operation clientId now).head? = some t0 ∧
          (∀ t ∈ rlSurvivors store operation clientId now, t0 ≤ t) ∧
          rlResetAt store operation clientId now =
            t0 + ((RATE_LIMITS operation).windowSeconds : Int) * 1000) ∧
      (rlSurvivors store operation clientId now = [] →
        rlResetAt store operation clientId now =
          now + ((RATE_LIMITS operation).windowSeconds : Int) * 1000) ∧
      (∀ (v : RateLimitData) (k : String), k ≠ kvKey operation clientId →
        storeGet (storeSet store (kvKey operation clientId) v) k = storeGet store k) ∧
      (∀ operation', operation' ≠ operation →
        kvKey operation' clientId ≠ kvKey operation clientId) ∧
      (∀ clientId', clientId' ≠ clientId →
        kvKey operation clientId' ≠ kvKey operation clientId) ∧
      ((runRateLimitCalls "token-ops" "client-a"
          [0, 1000, 2000, 3000, 4000, 5000, 6000, 7000, 8000, 9000, 10000] []).1.map
            (fun r => (r.allowed, r.remaining)) =
        [(true, 9), (true, 8), (true, 7), (true, 6), (true, 5), (true, 4),
         (true, 3), (true, 2), (true, 1), (true, 0), (false, 0)]) := by
  intro operation clientId store now
  refine ⟨?_, ?_, ?_, ?_, ?_, ?_, ?_, ?_⟩
  · intro h
    rw [checkRateLimit_eq, if_pos h]
  · intro h
    rw [checkRateLimit_eq, if_neg (by omega)]
    have hrem : max 0 (((RATE_LIMITS operation).requests : Int) -
        (rlSurvivors store operation clientId now).length) - 1 =
        ((RATE_LIMITS operation).requests : Int) -
          ((rlSurvivors store operation clientId now).length + 1) := by
      omega
    simp [hrem, List.length_append]
  · intro hsorted hne
    have hsurv : (rlSurvivors store operation clientId now).Sorted (· ≤ ·) :=
      hsorted.filter _
    obtain ⟨t0, rest, hcons⟩ := List.exists_cons_of_ne_nil hne
    refine ⟨t0, by rw [hcons]; rfl, ?_, ?_⟩
    · intro t ht
      rw [hcons] at ht hsurv
      rcases List.mem_cons.mp ht with h | h
      · exact le_of_eq h.symm
      · exact (List.sorted_cons.mp hsurv).1 t h
    · rw [rlResetAt, hcons]
  · intro h
    rw [rlResetAt, h]
  · intro v k hk
    exact storeGet_storeSet_ne store (kvKey operation clientId) k v hk
  · intro operation' h
    exact kvKey_ne_of_operation_ne operation operation' clientId h
  · intro clientId' h
    exact kvKey_ne_of_clientId_ne operation clientId clientId' h
  · decide

/-- Witness for C2: instantiates the rejection branch at a store holding ten
sorted in-window timestamps, and the admission branch at an empty store. -/
theorem c2_checkRateLimit_sliding_window_witness :
    ((rlSurvivors [(kvKey "token-ops" "w",
        { count := 10, timestamps := [1, 2, 3, 4, 5, 6, 7, 8, 9, 10], version := 3 })]
        "token-ops" "w" 1000).length ≥ (RATE_LIMITS "token-ops").requests ∧
      checkRateLimit "token-ops" "w"
        [(kvKey "token-ops" "w",
          { count := 10, timestamps := [1, 2, 3, 4, 5, 6, 7, 8, 9, 10], version := 3 })]
        false false 1000 =
        .ok ({ allowed := false, remaining := 0,
               resetAt := rlResetAt
                 [(kvKey "token-ops" "w",
                   { count := 10, timestamps := [1, 2, 3, 4, 5, 6, 7, 8, 9, 10], version := 3 })]
                 "token-ops" "w" 1000 },
             [(kvKey "token-ops" "w",
               { count := 10, timestamps := [1, 2, 3, 4, 5, 6, 7, 8, 9, 10], version := 3 })])) ∧
    ((rlSurvivors [] "token-ops" "w" 0).length < (RATE_LIMITS "token-ops").requests ∧
      checkRateLimit "token-ops" "w" [] false false 0 =
        .ok ({ allowed := true,
               remaining := ((RATE_LIMITS "token-ops").requests : Int) -
                 ((rlSurvivors [] "token-ops" "w" 0).length + 1),
               resetAt := rlResetAt [] "token-ops" "w" 0 },
             storeSet [] (kvKey "token-ops" "w")
               { count := (rlSurvivors [] "token-ops" "w" 0).length + 1,
                 timestamps := rlSurvivors [] "token-ops" "w" 0 ++ [0],
                 version := rlStoredVersion [] "token-ops" "w" + 1 })) :=
  ⟨⟨by decide,
    (c2_checkRateLimit_sliding_window "token-ops" "w"
      [(kvKey "token-ops" "w",
        { count := 10, timestamps := [1, 2, 3, 4, 5, 6, 7, 8, 9, 10], version := 3 })]
      1000).1 (by decide)⟩,
   ⟨by decide,
    (c2_checkRateLimit_sliding_window "token-ops" "w" [] 0).2.1 (by decide)⟩⟩

/-- C10: A rejected call writes nothing: whenever `checkRateLimit` returns
`allowed = false`, the returned store — timestamp lists and version counters
included — is exactly the store it was given. -/
theorem c10_reject_performs_no_write :
    ∀ (operation clientId : String) (store : KVStore) (readThrows writeThrows : Bool)
      (now : Int) (r : RLOutcome) (st' : KVStore),
      checkRateLimit operation clientId store readThrows writeThrows now = .ok (r, st') →
      r.allowed = false → st' = store := by
  intro operation clientId store readThrows writeThrows now r st' hok hallowed
  cases readThrows with
  | true => simp [checkRateLimit] at hok
  | false =>
    rw [checkRateLimit_eq] at hok
    by_cases hc : (rlSurvivors store operation clientId now).length ≥
        (RATE_LIMITS operation).requests
    · rw [if_pos hc] at hok
      injection hok with hok
      exact (congrArg Prod.snd hok).symm
    · rw [if_neg hc] at hok
      injection hok with hok
      have hall := congrArg (fun p => (Prod.fst p).allowed) hok
      simp at hall
      rw [hall] at hallowed
      exact Bool.noConfusion hallowed

/-- Witness for C10: a concrete rejected call (ten in-window timestamps
stored) leaves the store exactly as it was. -/
theorem c10_reject_performs_no_write_witness :
    checkRateLimit "token-ops" "w"
      [(kvKey "token-ops" "w",
        { count := 10, timestamps := [1, 2, 3, 4, 5, 6, 7, 8, 9, 10], version := 3 })]
      false false 1000 =
      .ok ({ allowed := false, remaining := 0, resetAt := 60001 },
        [(kvKey "token-ops" "w",
          { count := 10, timestamps := [1, 2, 3, 4, 5, 6, 7, 8, 9, 10], version := 3 })]) ∧
    [(kvKey "token-ops" "w",
      { count := 10, timestamps := [1, 2, 3, 4, 5, 6, 7, 8, 9, 10], version := 3 })] =
      [(kvKey "token-ops" "w",
        ({ count := 10, timestamps := [1, 2, 3, 4, 5, 6, 7, 8, 9, 10], version := 3 } : RateLimitData))] :=
  ⟨by rfl,
   c10_reject_performs_no_write "token-ops" "w"
     [(kvKey "token-ops" "w",
       { count := 10, timestamps := [1, 2, 3, 4, 5, 6, 7, 8, 9, 10], version := 3 })]
     false false 1000 { allowed := false, remaining := 0, resetAt := 60001 }
     [(kvKey "token-ops" "w",
       { count := 10, timestamps := [1, 2, 3, 4, 5, 6, 7, 8, 9, 10], version := 3 })]
     (by rfl) rfl⟩

theorem RATE_LIMITS_requests_pos (operation : String) :
    0 < (RATE_LIMITS operation).requests := by
  unfold RATE_LIMITS
  by_cases h : operation = "token-ops" <;> simp [h]

/-- Counterexample to C6 as stated: a throwing KV read is *not* caught by
`checkRateLimit` — the failure propagates to the caller instead of being
treated as empty history, so a store failure can fail the caller's request. -/
theorem c6_read_failure_propagates_cex :
    checkRateLimit "token-ops" "client-a" [] true false 0 = Except.error () := rfl

/-- C6 (amended): With a non-throwing read, `checkRateLimit` always
returns normally: a missing (or schema-invalid) stored value is treated as
empty history, and a failing KV write is swallowed — the caller receives the
very same result it would have received had the write succeeded, with the
store left unwritten.  A *throwing* KV read, however, propagates to the
caller. -/
theorem c6_store_failure_handling :
    ∀ (operation clientId : String) (store : KVStore) (now : Int),
      (∀ writeThrows, ∃ r st',
        checkRateLimit operation clientId store false writeThrows now = .ok (r, st')) ∧
      ((checkRateLimit operation clientId store false true now).map Prod.fst =
        (checkRateLimit operation clientId store false false now).map Prod.fst) ∧
      (∀ r st', checkRateLimit operation clientId store false true now = .ok (r, st') →
        st' = store) ∧
      (storeGet store (kvKey operation clientId) = none →
        checkRateLimit operation clientId store false false now =
          .ok ({ allowed := true,
                 remaining := ((RATE_LIMITS operation).requests : Int) - 1,
                 resetAt := now + ((RATE_LIMITS operation).windowSeconds : Int) * 1000 },
               storeSet store (kvKey operation clientId)
                 { count := 1, timestamps := [now], version := 1 })) ∧
      (checkRateLimit operation clientId store true false now = .error ()) := by
  intro operation clientId store now
  refine ⟨?_, ?_, ?_, ?_, rfl⟩
  · intro writeThrows
    rw [checkRateLimit_eq]
    by_cases hc : (rlSurvivors store operation clientId now).length ≥
        (RATE_LIMITS operation).requests
    · rw [if_pos hc]
      exact ⟨_, _, rfl⟩
    · rw [if_neg hc]
      exact ⟨_, _, rfl⟩
  · rw [checkRateLimit_eq, checkRateLimit_eq]
    by_cases hc : (rlSurvivors store operation clientId now).length ≥
        (RATE_LIMITS operation).requests
    · rw [if_pos hc, if_pos hc]
    · rw [if_neg hc, if_neg hc]
      simp [Except.map]
  · intro r st' hok
    rw [checkRateLimit_eq] at hok
    by_cases hc : (rlSurvivors store operation clientId now).length ≥
        (RATE_LIMITS operation).requests
    · rw [if_pos hc] at hok
      injection hok with hok
      exact (congrArg Prod.snd hok).symm
    · rw [if_neg hc] at hok
      injection hok with hok
      exact (congrArg Prod.snd hok).symm
  · intro hmiss
    have hreq := RATE_LIMITS_requests_pos operation
    have hsurv : rlSurvivors store operation clientId now = [] := by
      simp [rlSurvivors, rlStoredTimestamps, hmiss]
    have hver : rlStoredVersion store operation clientId = 0 := by
      simp [rlStoredVersion, hmiss]
    rw [checkRateLimit_eq, if_neg (by rw [hsurv]; simpa using Nat.not_le_of_lt hreq)]
    rw [rlResetAt, hsurv, hver]
    have hrem : max 0 (((RATE_LIMITS operation).requests : Int) -
        (([] : List Int)).length) - 1 = ((RATE_LIMITS operation).requests : Int) - 1 := by
      simp
    simp [hrem]

/-- Witness for C6 (amended) at concrete inputs: an empty store with a
failing write still admits the call and leaves the store unwritten. -/
theorem c6_store_failure_handling_witness :
    (checkRateLimit "token-ops" "c" [] false true 5 =
      .ok ({ allowed := true, remaining := 9, resetAt := 60005 }, []) ∧
      ([] : KVStore) = ([] : KVStore)) ∧
    (storeGet [] (kvKey "token-ops" "c") = none ∧
      checkRateLimit "token-ops" "c" [] false false 5 =
        .ok ({ allowed := true,
               remaining := ((RATE_LIMITS "token-ops").requests : Int) - 1,
               resetAt := 5 + ((RATE_LIMITS "token-ops").windowSeconds : Int) * 1000 },
             storeSet [] (kvKey "token-ops" "c")
               { count := 1, timestamps := [5], version := 1 })) :=
  ⟨⟨by rfl,
    (c6_store_failure_handling "token-ops" "c" [] 5).2.2.1
      { allowed := true, remaining := 9, resetAt := 60005 } [] (by rfl)⟩,
   ⟨rfl, (c6_store_failure_handling "token-ops" "c" [] 5).2.2.2.1 rfl⟩⟩

/-! ## Expiration parsing (`src/lib/expiration.ts`) -/

/-- Gregorian civil date (year, JS-style zero-based month, day-of-month) to a
day count since the Unix epoch.  The standard era-based algorithm; it is
linear in the day argument, so out-of-range days roll over exactly as the JS
`Date` setters do. -/
def daysFromCivil (y m0 d : Int) : Int :=
  let y' := if m0 ≤ 1 then y - 1 else y
  let era := y'.fdiv 400
  let yoe := y' - era * 400
  let mp := (m0 + 10) % 12
  let doy := (153 * mp + 2).fdiv 5 + d - 1
  let doe := yoe * 365 + yoe.fdiv 4 - yoe.fdiv 100 + doy
  era * 146097 + doe - 719468

/-- Day count since the Unix epoch back to a Gregorian civil date
(year, JS-style zero-based month, day-of-month). -/
def civilFromDays (days : Int) : Int × Int × Int :=
  let z := days + 719468
  let era := z.fdiv 146097
  let doe := z - era * 146097
  let yoe := (doe - doe.fdiv 1460 + doe.fdiv 36524 - doe.fdiv 146096).fdiv 365
  let y := yoe + era * 400
  let doy := doe - (365 * yoe + yoe.fdiv 4 - yoe.fdiv 100)
  let mp := (5 * doy + 2).fdiv 153
  let d := doy - (153 * mp + 2).fdiv 5 + 1
  let m := mp + (if mp < 10 then 3 else -9)
  (if m ≤ 2 then y + 1 else y, m - 1, d)

/-- JavaScript `now.setMonth(now.getMonth() + amount)` on a UTC timestamp in
milliseconds: decompose, shift the month with year rollover, recompose (the
out-of-range day-of-month rollover of JS is reproduced by `daysFromCivil`
being linear in its day argument). -/
def addMonths (t amount : Int) : Int :=
  let days := t.fdiv 86400000
  let msOfDay := t - days * 86400000
  let c := civilFromDays days
  let ym := c.1 * 12 + c.2.1 + amount
  let y' := ym.fdiv 12
  let m0' := ym - y' * 12
  daysFromCivil y' m0' c.2.2 * 86400000 + msOfDay

/-- JavaScript `now.setFullYear(now.getFullYear() + amount)` on a UTC timestamp. -/
def addYears (t amount : Int) : Int :=
  let days := t.fdiv 86400000
  let msOfDay := t - days * 86400000
  let c := civilFromDays days
  daysFromCivil (c.1 + amount) c.2.1 c.2.2 * 86400000 + msOfDay

/-- The `limits` record of `parseExpiresIn`: per-unit maximum amounts. -/
def EXPIRATION_LIMITS (unit : Char) : Nat :=
  if unit = 'h' then 8760
  else if unit = 'd' then 365
  else if unit = 'm' then 12
  else 10

/-- JavaScript `parseInt(amountStr, 10)` on an all-digit string. -/
def digitsToNat (ds : List Char) : Nat :=
  ds.foldl (fun n c => n * 10 + (c.toNat - '0'.toNat)) 0

/-- The regex match `expiresIn.match(/^(\d+)([dhmy])$/)`: one or more digits
immediately followed by exactly one unit letter, nothing else. -/
def matchExpiresIn (s : String) : Option (Nat × Char) :=
  match s.data.getLast? with
  | none => none
  | some unit =>
    let digits := s.data.dropLast
    if digits ≠ [] ∧ digits.all Char.isDigit ∧
        (unit = 'd' ∨ unit = 'h' ∨ unit = 'm' ∨ unit = 'y') then
      some (digitsToNat digits, unit)
    else none

/-- The four `switch (unit)` arms of `parseExpiresIn`.  In a UTC runtime
`setHours`/`setDate` advance the underlying timestamp by exactly
`amount·3600000` / `amount·86400000` milliseconds (UTC has no DST);
`setMonth`/`setFullYear` are calendar-aware. -/
def advanceByUnit (unit : Char) (amount : Nat) (now : Int) : Int :=
  if unit = 'h' then now + (amount : Int) * 3600000
  else if unit = 'd' then now + (amount : Int) * 86400000
  else if unit = 'm' then addMonths now (amount : Int)
  else addYears now (amount : Int)

/-- Function `parseExpiresIn(expiresIn)` from `expiration.ts` lines 23–75, with
`Date.now()` made explicit.  `Except.error` models a thrown
`ValidationError`; `.ok none` models returning `undefined` (no expiration);
`.ok (some t)` models returning the instant `t` (the source renders it with
`toISOString`, a bijective formatting step not modelled here). -/
def parseExpiresIn (expiresIn : Option String) (now : Int) :
    Except McpError (Option Int) :=
  match expiresIn with
  | none => .ok none
  | some s =>
    if s = "" ∨ s = "never" then .ok none
    else
      match matchExpiresIn s with
      | none =>
        .error (mkValidationError ("Invalid expiration format: \"" ++ s ++
          "\". Use formats like \"1h\", \"7d\", \"30d\", \"3m\", \"1y\", or \"never\"."))
      | some (amount, unit) =>
        if amount ≤ 0 then
          .error (mkValidationError "Expiration amount must be greater than 0")
        else if amount > EXPIRATION_LIMITS unit then
          .error (mkValidationError ("Expiration too far in the future. Maximum: " ++
            toString (EXPIRATION_LIMITS unit) ++ String.singleton unit))
        else
          .ok (some (advanceByUnit unit amount now))

/-- C7: `parseExpiresIn` maps absent input and `"never"` to no-expiration;
it accepts exactly the strings matching digits-then-one-unit-letter in
`{d,h,m,y}` whose amount is strictly positive and within the per-unit bound
(`h ≤ 8760`, `d ≤ 365`, `m ≤ 12`, `y ≤ 10` per `EXPIRATION_LIMITS`), so
`"30"`, `"d30"`, `"0d"` and `"9999d"` all fail, every failure being a
`VALIDATION_ERROR`; and an accepted token yields the current instant advanced
by the amount in the given unit — for `"30d"`, exactly `30·86400` seconds
ahead. -/
theorem c7_parseExpiresIn_spec :
    ∀ now : Int,
      (parseExpiresIn none now = .ok none ∧
        parseExpiresIn (some "never") now = .ok none) ∧
      (∀ s : String, s ≠ "" → s ≠ "never" →
        ((∃ v, parseExpiresIn (some s) now = .ok v) ↔
          (∃ a u, matchExpiresIn s = some (a, u) ∧ 0 < a ∧ a ≤ EXPIRATION_LIMITS u))) ∧
      (∀ (s : String) (e : McpError), parseExpiresIn (some s) now = .error e →
        e.code = ErrorCode.VALIDATION_ERROR) ∧
      (∀ (s : String) (a : Nat) (u : Char), s ≠ "" → s ≠ "never" →
        matchExpiresIn s = some (a, u) → 0 < a → a ≤ EXPIRATION_LIMITS u →
        parseExpiresIn (some s) now = .ok (some (advanceByUnit u a now))) ∧
      ((∃ e, parseExpiresIn (some "30") now = .error e) ∧
        (∃ e, parseExpiresIn (some "d30") now = .error e) ∧
        (∃ e, parseExpiresIn (some "0d") now = .error e) ∧
        (∃ e, parseExpiresIn (some "9999d") now = .error e)) ∧
      (parseExpiresIn (some "30d") now = .ok (some (now + 30 * 86400000))) := by
  intro now
  have hstep : ∀ (s : String) (a : Nat) (u : Char), s ≠ "" → s ≠ "never" →
      matchExpiresIn s = some (a, u) → 0 < a → a ≤ EXPIRATION_LIMITS u →
      parseExpiresIn (some s) now = .ok (some (advanceByUnit u a now)) := by
    intro s a u hs1 hs2 hm ha hb
    have h2 : ¬ a ≤ 0 := by omega
    have h3 : ¬ a > EXPIRATION_LIMITS u := by omega
    simp [parseExpiresIn, hs1, hs2, hm, h2, h3]
  refine ⟨⟨rfl, rfl⟩, ?_, ?_, hstep, ?_, ?_⟩
  · intro s hs1 hs2
    constructor
    · rintro ⟨v, hv⟩
      cases hm : matchExpiresIn s with
      | none => simp [parseExpiresIn, hs1, hs2, hm] at hv
      | some au =>
        obtain ⟨a, u⟩ := au
        by_cases ha : a ≤ 0
        · simp [parseExpiresIn, hs1, hs2, hm, ha] at hv
        · by_cases hb : a > EXPIRATION_LIMITS u
          · simp [parseExpiresIn, hs1, hs2, hm, ha, hb] at hv
          · exact ⟨a, u, rfl, by omega, by omega⟩
    · rintro ⟨a, u, hm, ha, hb⟩
      exact ⟨some (advanceByUnit u a now), hstep s a u hs1 hs2 hm ha hb⟩
  · intro s e he
    by_cases hc : s = "" ∨ s = "never"
    · simp [parseExpiresIn, hc] at he
    · rw [not_or] at hc
      cases hm : matchExpiresIn s with
      | none =>
        simp [parseExpiresIn, hc.1, hc.2, hm] at he
        rw [← he]
        rfl
      | some au =>
        obtain ⟨a, u⟩ := au
        by_cases ha : a ≤ 0
        · simp [parseExpiresIn, hc.1, hc.2, hm, ha] at he
          rw [← he]
          rfl
        · by_cases hb : a > EXPIRATION_LIMITS u
          · simp [parseExpiresIn, hc.1, hc.2, hm, ha, hb] at he
            rw [← he]
            rfl
          · simp [parseExpiresIn, hc.1, hc.2, hm, ha, hb] at he
  · exact ⟨⟨_, by rfl⟩, ⟨_, by rfl⟩, ⟨_, by rfl⟩, ⟨_, by rfl⟩⟩
  · have h30 : matchExpiresIn "30d" = some (30, 'd') := by decide
    rw [hstep "30d" 30 'd' (by decide) (by decide) h30 (by decide) (by decide)]
    have hd : advanceByUnit 'd' 30 now = now + (30 : Nat) * 86400000 := by
      unfold advanceByUnit
      rw [if_neg (by decide), if_pos rfl]
    rw [hd]
    norm_num

/-- Witness for C7 at concrete inputs: `"12h"` and `"3m"` are accepted (the
latter exercising calendar-aware month addition from the epoch), `"0d"` is
rejected with a `VALIDATION_ERROR`. -/
theorem c7_parseExpiresIn_spec_witness :
    parseExpiresIn (some "12h") 0 = .ok (some 43200000) ∧
    parseExpiresIn (some "3m") 0 = .ok (some 7776000000) ∧
    (parseExpiresIn (some "0d") 0 =
      .error (mkValidationError "Expiration amount must be greater than 0") ∧
      (mkValidationError "Expiration amount must be greater than 0").code =
        ErrorCode.VALIDATION_ERROR) := by
  have h := c7_parseExpiresIn_spec 0
  refine ⟨?_, ?_, ?_, ?_⟩
  · have := h.2.2.2.1 "12h" 12 'h' (by decide) (by decide) (by decide)
      (by decide) (by decide)
    rw [this]
    rfl
  · have := h.2.2.2.1 "3m" 3 'm' (by decide) (by decide) (by decide)
      (by decide) (by decide)
    rw [this]
    rfl
  · rfl
  · exact h.2.2.1 "0d" (mkValidationError "Expiration amount must be greater than 0")
      (by rfl)

/-! ## Schema validation (`src/lib/validation.ts`) -/

/-- A JSON value (tool-call arguments). -/
inductive Json where
  | null
  | bool (b : Bool)
  | num (q : Rat)
  | str (s : String)
  | arr (elems : List Json)
  | obj (fields : List (String × Json))
deriving Repr

/-- A tool parameter schema, as understood by `jsonSchemaToZod`: the schema
record fused with the Zod checker it compiles to.  JS truthiness of the
constraint fields is preserved where the source tests truthiness
(`minLength`/`maxLength`/`minItems`/`maxItems`: a present 0 is ignored) and
presence where it tests `!== undefined` (`minimum`/`maximum`).  `enum` takes
precedence over the other string constraints.  A regex `pattern` is modelled
as its decision function.  `objS none` is the `z.record(z.unknown())` case
(no `properties` given); `objS (some props)` is `z.object(shape).passthrough()`
with non-`required` properties optional. -/
inductive JSchema where
  | strS (enum : Option (List String)) (minLength maxLength : Option Nat)
      (pattern : Option (String → Bool))
  | numS (isInt : Bool) (minimum maximum : Option Rat)
  | boolS
  | arrS (items : Option JSchema) (minItems maxItems : Option Nat)
  | objS (properties : Option (List (String × JSchema))) (required : List String)
  | unknownS

/-- A JS-truthy lower bound (`if (schema.minLength) s = s.min(...)`). -/
def truthyMinOk (bound : Option Nat) (n : Nat) : Bool :=
  match bound with
  | some b => if b ≠ 0 then decide (b ≤ n) else true
  | none => true

/-- A JS-truthy upper bound (`if (schema.maxLength) s = s.max(...)`). -/
def truthyMaxOk (bound : Option Nat) (n : Nat) : Bool :=
  match bound with
  | some b => if b ≠ 0 then decide (n ≤ b) else true
  | none => true

/-- Whether every property of the shape that is listed in `required` is
present in the input object (Zod fails with `Required` otherwise). -/
def requiredPresent (props : List (String × JSchema)) (required : List String)
    (fields : List (String × Json)) : Bool :=
  props.all (fun p => !(required.contains p.1) || fields.any (fun f => f.1 = p.1))

mutual

/-- Semantics of `validator.parse(args)` for the Zod validator `jsonSchemaToZod` builds:
on success Zod returns the parsed value — scalars verbatim, arrays rebuilt
from their parsed elements, objects rebuilt with every declared-and-present
property replaced by its parsed value and **every undeclared property passed
through unchanged** (`.passthrough()`).  The `fuel` argument is a standard
structural-recursion device: every recursive call strictly decreases the
combined `sizeOf` of schema and value, so the `zodParse` wrapper below
always supplies enough fuel and the zero-fuel branch is unreachable from
it. -/
def zodParseF : Nat → JSchema → Json → Option Json
  | 0, _, _ => none
  | _ + 1, .strS enum minL maxL pat, v =>
    match v with
    | .str s =>
      match enum with
      | some es => if es.contains s then some (.str s) else none
      | none =>
        if truthyMinOk minL s.length && truthyMaxOk maxL s.length &&
            (match pat with | some p => p s | none => true) then
          some (.str s)
        else none
    | _ => none
  | _ + 1, .numS isInt mn mx, v =>
    match v with
    | .num q =>
      if (!isInt || decide (q.den = 1)) &&
          (match mn with | some m => decide (m ≤ q) | none => true) &&
          (match mx with | some m => decide (q ≤ m) | none => true) then
        some (.num q)
      else none
    | _ => none
  | _ + 1, .boolS, v =>
    match v with
    | .bool b => some (.bool b)
    | _ => none
  | fuel + 1, .arrS items minI maxI, v =>
    match v with
    | .arr xs =>
      match (match items with
        | some sch => zodParseListF fuel sch xs
        | none => some xs) with
      | some ys =>
        if truthyMinOk minI ys.length && truthyMaxOk maxI ys.length then
          some (.arr ys)
        else none
      | none => none
    | _ => none
  | _ + 1, .objS none _, v =>
    match v with
    | .obj fields => some (.obj fields)
    | _ => none
  | fuel + 1, .objS (some props) required, v =>
    match v with
    | .obj fields =>
      if requiredPresent props required fields then
        match zodParseFieldsF fuel props fields with
        | some fs => some (.obj fs)
        | none => none
      else none
    | _ => none
  | _ + 1, .unknownS, v => some v

/-- Element-wise parse of an array against the item schema. -/
def zodParseListF : Nat → JSchema → List Json → Option (List Json)
  | 0, _, _ => none
  | _ + 1, _, [] => some []
  | fuel + 1, sch, x :: xs =>
    match zodParseF fuel sch x, zodParseListF fuel sch xs with
    | some y, some ys => some (y :: ys)
    | _, _ => none

/-- Object fields, in input order: declared properties are parsed against
their schema, undeclared ones pass through. -/
def zodParseFieldsF : Nat → List (String × JSchema) → List (String × Json) →
    Option (List (String × Json))
  | 0, _, _ => none
  | _ + 1, _, [] => some []
  | fuel + 1, props, (k, v) :: fs =>
    match zodParseFieldF fuel props k v, zodParseFieldsF fuel props fs with
    | some w, some ws => some ((k, w) :: ws)
    | _, _ => none

/-- One object field: looked up in the shape (first match wins, as in a JS
object literal); an undeclared key passes through unchanged. -/
def zodParseFieldF : Nat → List (String × JSchema) → String → Json → Option Json
  | 0, _, _, _ => none
  | _ + 1, [], _, v => some v
  | fuel + 1, (pk, ps) :: props, k, v =>
    if pk = k then zodParseF fuel ps v else zodParseFieldF fuel props k v

end

mutual

/-- Node count of a JSON value (fuel budget component). -/
def jsonSize : Json → Nat
  | .null => 1
  | .bool _ => 1
  | .num _ => 1
  | .str _ => 1
  | .arr xs => 1 + jsonListSize xs
  | .obj fs => 1 + jsonFieldsSize fs

/-- Node count of a JSON array (fuel budget component). -/
def jsonListSize : List Json → Nat
  | [] => 1
  | x :: xs => 1 + jsonSize x + jsonListSize xs

/-- Node count of a JSON object field list (fuel budget component). -/
def jsonFieldsSize : List (String × Json) → Nat
  | [] => 1
  | (_, v) :: fs => 1 + jsonSize v + jsonFieldsSize fs

end

mutual

/-- Node count of a schema (fuel budget component). -/
def schemaSize : JSchema → Nat
  | .strS _ _ _ _ => 1
  | .numS _ _ _ => 1
  | .boolS => 1
  | .unknownS => 1
  | .arrS items _ _ => 1 + (match items with | some s => schemaSize s | none => 0)
  | .objS props _ => 1 + (match props with | some ps => schemaPropsSize ps | none => 0)

/-- Node count of a schema property list (fuel budget component). -/
def schemaPropsSize : List (String × JSchema) → Nat
  | [] => 1
  | (_, s) :: ps => 1 + schemaSize s + schemaPropsSize ps

end

/-- Wrapper `validator.parse(v)` with sufficient fuel (the recursion consumes at most
one unit of the combined node count per call). -/
def zodParse (s : JSchema) (v : Json) : Option Json :=
  zodParseF (schemaSize s + jsonSize v) s v

/-- Function `validateArgs(toolName, args, inputSchema)` from `validation.ts` lines
88–111: build the object validator (`buildToolValidator`, with
`required || []` already applied) and parse; a Zod failure is converted into
a thrown `ValidationError`.  The source aggregates the individual Zod issue
paths into the message; no claim depends on that text, so it is abstracted
to a fixed prefix naming the tool. -/
def validateArgs (toolName : String) (args : Json)
    (properties : List (String × JSchema)) (required : List String) :
    Except McpError Json :=
  match zodParse (.objS (some properties) required) args with
  | some v => .ok v
  | none => .error (mkValidationError ("Invalid arguments for " ++ toolName))

/-- Joint identity lemma for the fueled Zod parser: whenever any of the four
parsing functions succeeds, its output is exactly its input. -/
theorem zodParseF_id :
    ∀ fuel : Nat,
      (∀ s v w, zodParseF fuel s v = some w → w = v) ∧
      (∀ sch xs ys, zodParseListF fuel sch xs = some ys → ys = xs) ∧
      (∀ props fs ws, zodParseFieldsF fuel props fs = some ws → ws = fs) ∧
      (∀ props k v w, zodParseFieldF fuel props k v = some w → w = v) := by
  intro fuel
  induction fuel with
  | zero =>
    refine ⟨?_, ?_, ?_, ?_⟩
    · intro s v w h; exact Option.noConfusion h
    · intro sch xs ys h; exact Option.noConfusion h
    · intro props fs ws h; exact Option.noConfusion h
    · intro props k v w h; exact Option.noConfusion h
  | succ fuel ih =>
    obtain ⟨ihP, ihL, ihFs, ihF⟩ := ih
    refine ⟨?_, ?_, ?_, ?_⟩
    · intro s v w h
      cases s with
      | strS enum minL maxL pat =>
        cases v
        case str s0 =>
          simp only [zodParseF] at h
          cases enum with
          | some es =>
            simp only [] at h
            split at h
            · exact (Option.some.inj h).symm
            · exact Option.noConfusion h
          | none =>
            simp only [] at h
            split at h
            · exact (Option.some.inj h).symm
            · exact Option.noConfusion h
        all_goals simp only [zodParseF] at h
        all_goals exact Option.noConfusion h
      | numS isInt mn mx =>
        cases v
        case num q =>
          simp only [zodParseF] at h
          split at h
          · exact (Option.some.inj h).symm
          · exact Option.noConfusion h
        all_goals simp only [zodParseF] at h
        all_goals exact Option.noConfusion h
      | boolS =>
        cases v
        case bool b =>
          simp only [zodParseF] at h
          exact (Option.some.inj h).symm
        all_goals simp only [zodParseF] at h
        all_goals exact Option.noConfusion h
      | arrS items minI maxI =>
        cases v
        case arr xs =>
          cases items with
          | some sch =>
            simp only [zodParseF] at h
            cases hys : zodParseListF fuel sch xs with
            | none =>
              rw [hys] at h
              simp only [] at h
              exact Option.noConfusion h
            | some ys =>
              rw [hys] at h
              simp only [] at h
              split at h
              · have hy := ihL sch xs ys hys
                subst hy
                exact (Option.some.inj h).symm
              · exact Option.noConfusion h
          | none =>
            simp only [zodParseF] at h
            split at h
            · exact (Option.some.inj h).symm
            · exact Option.noConfusion h
        all_goals simp only [zodParseF] at h
        all_goals exact Option.noConfusion h
      | objS props required =>
        cases props with
        | none =>
          cases v
          case obj fields =>
            simp only [zodParseF] at h
            exact (Option.some.inj h).symm
          all_goals simp only [zodParseF] at h
          all_goals exact Option.noConfusion h
        | some ps =>
          cases v
          case obj fields =>
            simp only [zodParseF] at h
            split at h
            · cases hfs : zodParseFieldsF fuel ps fields with
              | none =>
                rw [hfs] at h
                simp only [] at h
                exact Option.noConfusion h
              | some fs' =>
                rw [hfs] at h
                simp only [] at h
                have h2 := ihFs ps fields fs' hfs
                subst h2
                exact (Option.some.inj h).symm
            · exact Option.noConfusion h
          all_goals simp only [zodParseF] at h
          all_goals exact Option.noConfusion h
      | unknownS =>
        simp only [zodParseF] at h
        exact (Option.some.inj h).symm
    · intro sch xs ys h
      cases xs with
      | nil =>
        simp only [zodParseListF] at h
        exact (Option.some.inj h).symm
      | cons x xs =>
        simp only [zodParseListF] at h
        cases hx : zodParseF fuel sch x with
        | none =>
          rw [hx] at h
          simp only [] at h
          exact Option.noConfusion h
        | some y =>
          cases hxs : zodParseListF fuel sch xs with
          | none =>
            rw [hx, hxs] at h
            simp only [] at h
            exact Option.noConfusion h
          | some ys' =>
            rw [hx, hxs] at h
            simp only [] at h
            have h1 := ihP sch x y hx
            have h2 := ihL sch xs ys' hxs
            subst h1
            subst h2
            exact (Option.some.inj h).symm
    · intro props fs ws h
      cases fs with
      | nil =>
        simp only [zodParseFieldsF] at h
        exact (Option.some.inj h).symm
      | cons kv fs =>
        obtain ⟨k, v⟩ := kv
        simp only [zodParseFieldsF] at h
        cases hv : zodParseFieldF fuel props k v with
        | none =>
          rw [hv] at h
          simp only [] at h
          exact Option.noConfusion h
        | some w' =>
          cases hfs : zodParseFieldsF fuel props fs with
          | none =>
            rw [hv, hfs] at h
            simp only [] at h
            exact Option.noConfusion h
          | some ws' =>
            rw [hv, hfs] at h
            simp only [] at h
            have h1 := ihF props k v w' hv
            have h2 := ihFs props fs ws' hfs
            subst h1
            subst h2
            exact (Option.some.inj h).symm
    · intro props k v w h
      cases props with
      | nil =>
        simp only [zodParseFieldF] at h
        exact (Option.some.inj h).symm
      | cons p props =>
        obtain ⟨pk, ps⟩ := p
        simp only [zodParseFieldF] at h
        by_cases hpk : pk = k
        · rw [if_pos hpk] at h
          exact ihP ps v w h
        · rw [if_neg hpk] at h
          exact ihF props k v w h

/-- C9: For every tool schema and every argument map the validator
accepts, `validateArgs` returns a value *equal to its input*: declared fields
come back unchanged (no implicit coercion anywhere) and every input property
not declared in the schema is preserved by the `.passthrough()` object
semantics. -/
theorem c9_validateArgs_identity_passthrough :
    ∀ (toolName : String) (properties : List (String × JSchema))
      (required : List String) (args w : Json),
      validateArgs toolName args properties required = .ok w → w = args := by
  intro toolName properties required args w h
  unfold validateArgs at h
  cases hz : zodParse (.objS (some properties) required) args with
  | none => rw [hz] at h; simp only [] at h; exact Except.noConfusion h
  | some v =>
    rw [hz] at h
    simp only [] at h
    have hv := (zodParseF_id (schemaSize (.objS (some properties) required) +
      jsonSize args)).1 _ args v hz
    subst hv
    exact (Except.ok.inj h).symm

/-- Witness for C9 at the `create_token` shape: the required `type` (enum)
and `name` fields validate, and the undeclared `extra` property passes
through, the output being exactly the input. -/
theorem c9_validateArgs_identity_passthrough_witness :
    validateArgs "create_token"
      (Json.obj [("type", .str "user"), ("name", .str "ci"), ("extra", .bool true)])
      [("type", .strS (some ["user", "account"]) none none none),
       ("name", .strS none none none none)]
      ["type", "name"] =
      .ok (Json.obj [("type", .str "user"), ("name", .str "ci"), ("extra", .bool true)]) ∧
    Json.obj [("type", .str "user"), ("name", .str "ci"), ("extra", .bool true)] =
      Json.obj [("type", .str "user"), ("name", .str "ci"), ("extra", .bool true)] :=
  ⟨by rfl,
   c9_validateArgs_identity_passthrough "create_token"
     [("type", .strS (some ["user", "account"]) none none none),
      ("name", .strS none none none none)]
     ["type", "name"]
     (Json.obj [("type", .str "user"), ("name", .str "ci"), ("extra", .bool true)])
     (Json.obj [("type", .str "user"), ("name", .str "ci"), ("extra", .bool true)])
     (by rfl)⟩

/-! ## Tool catalog and `executeTool` prefix (`src/tools.ts`) -/

/-- An entry of the `TOOLS` catalog: name plus `inputSchema` (its
`properties` shape and `required` list; every tool's schema has
`type: 'object'`). -/
structure MCPToolDef where
  name : String
  properties : List (String × JSchema)
  required : List String

/-- The `TOOLS` catalog of `tools.ts` (names, properties, required lists,
transcribed from the eleven tool definitions). -/
def TOOLS : List MCPToolDef :=
  [{ name := "list_permission_groups",
     properties := [("filter", .strS none none none none)],
     required := [] },
   { name := "list_templates", properties := [], required := [] },
   { name := "get_template",
     properties := [("templateId", .strS none none none none)],
     required := ["templateId"] },
   { name := "list_tokens",
     properties := [("type", .strS (some ["user", "account"]) none none none),
       ("accountId", .strS none none none none),
       ("page", .numS false none none),
       ("perPage", .numS false none none)],
     required := ["type"] },
   { name := "get_token",
     properties := [("type", .strS (some ["user", "account"]) none none none),
       ("accountId", .strS none none none none),
       ("tokenId", .strS none none none none)],
     required := ["type", "tokenId"] },
   { name := "create_token",
     properties := [("type", .strS (some ["user", "account"]) none none none),
       ("accountId", .strS none none none none),
       ("name", .strS none none none none),
       ("template", .strS none none none none),
       ("permissionGroupIds", .arrS (some (.strS none none none none)) none none),
       ("resourceScope",
         .strS (some ["all_accounts", "specific_account", "all_zones"]) none none none),
       ("expiresIn", .strS none none none none),
       ("ipAllow", .arrS (some (.strS none none none none)) none none),
       ("ipDeny", .arrS (some (.strS none none none none)) none none)],
     required := ["type", "name"] },
   { name := "revoke_token",
     properties := [("type", .strS (some ["user", "account"]) none none none),
       ("accountId", .strS none none none none),
       ("tokenId", .strS none none none none)],
     required := ["type", "tokenId"] },
   { name := "verify_token",
     properties := [("token", .strS none none none none)],
     required := ["token"] },
   { name := "rotate_token",
     properties := [("type", .strS (some ["user", "account"]) none none none),
       ("accountId", .strS none none none none),
       ("tokenId", .strS none none none none),
       ("revokeOld", .boolS),
       ("newName", .strS none none none none)],
     required := ["type", "tokenId"] },
   { name := "list_accounts", properties := [], required := [] },
   { name := "get_account",
     properties := [("accountId", .strS none none none none)],
     required := ["accountId"] }]

/-- The `RATE_LIMITED_TOOLS` set (the mutating tools). -/
def RATE_LIMITED_TOOLS : List String :=
  ["create_token", "revoke_token", "rotate_token"]

/-- Lookup `TOOLS.find(t => t.name === toolName)`. -/
def findTool (toolName : String) : Option MCPToolDef :=
  TOOLS.find? (fun t => t.name == toolName)

/-- JavaScript `Math.ceil(a / b)` for positive `b` on integers. -/
def ceilDiv (a b : Int) : Int := -((-a).fdiv b)

/-- Observable pipeline stages, recorded in source order as a request flows
through the `/mcp` route: JSON body parsing, argument validation, the rate
limiter's store access, and the downstream (Cloudflare API) region of
`executeTool`. -/
inductive PipeEffect where
  | bodyParsed
  | argsValidated
  | rateLimiterQueried
  | downstreamInvoked
deriving DecidableEq, Repr

/-- Result of the modelled `executeTool` prefix: either a thrown JS value or
control reaching the downstream provider region. -/
inductive ToolOutcome where
  | threw (e : JsValue)
  | completed

/-- The prefix of `executeTool(toolName, args, env, clientIp)` from
`tools.ts` lines 265–292 up to (and including) the rate-limit gate: find the
tool, validate the arguments against its schema (a failure throws the
`ValidationError`), and for a mutating tool with a client ip run
`checkRateLimit('token-ops', clientIp)`, throwing
`RateLimitError('Rate limit exceeded. Try again in <retryAfter>s',
{retryAfter})` with `retryAfter = Math.ceil((resetAt - Date.now())/1000)` on
rejection.  Everything after the gate (account allow-list, the Cloudflare
calls) is the external downstream region, abstracted as `completed`.  The
KV store is threaded explicitly and fault-free (`Date.now()` is the single
instant `now`). -/
def executeToolGate (toolName : String) (args : Json) (store : KVStore)
    (now : Int) (clientIp : Option String) :
    ToolOutcome × KVStore × List PipeEffect :=
  match findTool toolName with
  | none => (.threw (.mcpErr (mkValidationError ("Unknown tool: " ++ toolName))), store, [])
  | some tool =>
    match validateArgs toolName args tool.properties tool.required with
    | .error e => (.threw (.mcpErr e), store, [.argsValidated])
    | .ok _ =>
      match clientIp with
      | some ip =>
        if RATE_LIMITED_TOOLS.contains toolName then
          match checkRateLimit "token-ops" ip store false false now with
          | .error _ =>
            (.threw (.genericErr "KV get failed"), store, [.argsValidated, .rateLimiterQueried])
          | .ok (rl, store') =>
            if rl.allowed then
              (.completed, store', [.argsValidated, .rateLimiterQueried, .downstreamInvoked])
            else
              (.threw (.mcpErr (mkRateLimitError
                  ("Rate limit exceeded. Try again in " ++
                    toString (ceilDiv (rl.resetAt - now) 1000) ++ "s")
                  (some (ceilDiv (rl.resetAt - now) 1000)) none)),
                store', [.argsValidated, .rateLimiterQueried])
        else (.completed, store, [.argsValidated, .downstreamInvoked])
      | none => (.completed, store, [.argsValidated, .downstreamInvoked])

/-! ## Dispatcher and route (`src/index.ts`, `src/lib/tracing.ts`) -/

/-- The JSON-RPC payload shapes the handler produces that the claims
observe: a `result` with text content and an `isError` marker (tool call
outcomes), the non-tool result objects (initialize / tools list / ping,
shape immaterial), or a protocol-level `error {code, message,
data:{correlationId}}`. -/
inductive MCPPayload where
  | result (isError : Bool) (text : String)
  | resultOther
  | rpcError (code : Int) (message : String) (correlationId : String)
deriving DecidableEq, Repr

/-- A JSON-RPC response envelope (`jsonrpc: "2.0"` implicit). -/
structure MCPResponseM where
  id : Option Int
  payload : MCPPayload
deriving DecidableEq, Repr

/-- The `RateLimitInfo` record of `index.ts`. -/
structure RateLimitInfoM where
  remaining : Int
  resetAt : Int
  limited : Bool
deriving DecidableEq, Repr

/-- The `MCPResult` record of `index.ts` (response plus optional rate-limit
info). -/
structure MCPResultM where
  response : MCPResponseM
  rateLimitInfo : Option RateLimitInfoM

/-- An inbound JSON-RPC request (`id`, `method`, `params?.name`,
`params?.arguments`). -/
structure MCPRequestM where
  id : Option Int
  method : String
  paramsName : Option String
  paramsArguments : Option Json

/-- Function `handleMCPRequest(request, env, clientIp, logger, correlationId)` from
`index.ts` lines 847–1017, with the KV store and instant explicit, returning
the result plus the store and the pipeline effects (empty for the methods
that never touch the tool machinery).  In the `tools/call` catch branch the
thrown value is classified by `categorizeError(error, correlationId)`, and
rate-limit info is attached only when the *classified* error passes
`categorized instanceof RateLimitError && categorized.retryAfter`
(class `.rateLimit` and a truthy, i.e. non-zero, `retryAfter`). -/
def handleMCPRequest (request : MCPRequestM) (clientIp : String)
    (correlationId : String) (store : KVStore) (now : Int) :
    MCPResultM × KVStore × List PipeEffect :=
  if request.method = "initialize" then
    (⟨⟨request.id, .resultOther⟩, none⟩, store, [])
  else if request.method = "tools/list" then
    (⟨⟨request.id, .resultOther⟩, none⟩, store, [])
  else if request.method = "tools/call" then
    match request.paramsName with
    | none =>
      (⟨⟨request.id, .rpcError (-32602) "Missing tool name" correlationId⟩, none⟩, store, [])
    | some toolName =>
      match findTool toolName with
      | none =>
        (⟨⟨request.id, .rpcError (-32602) ("Unknown tool: " ++ toolName) correlationId⟩,
          none⟩, store, [])
      | some _ =>
        let args := request.paramsArguments.getD (.obj [])
        match executeToolGate toolName args store now (some clientIp) with
        | (.completed, store', effects) =>
          (⟨⟨request.id, .result false "downstream result"⟩, none⟩, store', effects)
        | (.threw e, store', effects) =>
          let categorized := categorizeError e (some correlationId)
          let rateLimitInfo : Option RateLimitInfoM :=
            if categorized.cls = ErrClass.rateLimit ∧ categorized.retryAfter.getD 0 ≠ 0 then
              some ⟨0, now + categorized.retryAfter.getD 0 * 1000, true⟩
            else none
          (⟨⟨request.id, .result true ("Error: " ++ categorized.message)⟩, rateLimitInfo⟩,
            store', effects)
  else if request.method = "notifications/initialized" ∨ request.method = "ping" then
    (⟨⟨request.id, .resultOther⟩, none⟩, store, [])
  else
    (⟨⟨request.id, .rpcError (-32601) ("Method not found: " ++ request.method) correlationId⟩,
      none⟩, store, [])

/-- JS truthiness for an optional header value: `undefined` and `""` are
falsy. -/
def truthyHeader (v : Option String) : Option String :=
  match v with
  | some s => if s = "" then none else some s
  | none => none

/-- Lookup `headers.get(name)` / Hono `c.req.header(name)` (header names taken
verbatim; the pipeline always probes with the canonical spelling). -/
def headerGet (headers : List (String × String)) (name : String) : Option String :=
  match headers with
  | [] => none
  | (k, v) :: rest => if k = name then some v else headerGet rest name

/-- Function `getOrCreateCorrelationId(request)` from `tracing.ts`:
`X-Correlation-ID || X-Request-ID || generateCorrelationId()`, with the
generated id supplied as a parameter. -/
def getOrCreateCorrelationId (headers : List (String × String))
    (generated : String) : String :=
  match truthyHeader (headerGet headers "X-Correlation-ID") with
  | some c => c
  | none =>
    match truthyHeader (headerGet headers "X-Request-ID") with
    | some c => c
    | none => generated

/-- Function `getClientId(request)` from `rate-limit.ts` lines 111–121: prefer the
`X-Client-ID` header (as `client:<id>`), else `ip:<CF-Connecting-IP>`, else
`ip:unknown`. -/
def getClientId (headers : List (String × String)) : String :=
  match truthyHeader (headerGet headers "X-Client-ID") with
  | some customId => "client:" ++ customId
  | none =>
    "ip:" ++ (match truthyHeader (headerGet headers "CF-Connecting-IP") with
      | some ip => ip
      | none => "unknown")

/-- The identity the `/mcp` route actually derives for rate limiting
(`index.ts` line 819):
`CF-Connecting-IP || X-Forwarded-For || 'unknown'` — note it never consults
`X-Client-ID` (and `getClientId` is never called on this path). -/
def mcpRateLimitIdentity (headers : List (String × String)) : String :=
  match truthyHeader (headerGet headers "CF-Connecting-IP") with
  | some ip => ip
  | none =>
    match truthyHeader (headerGet headers "X-Forwarded-For") with
    | some ip => ip
    | none => "unknown"

/-- Function `rateLimitHeaders(remaining, resetAt)` from `rate-limit.ts` lines
126–134. -/
def rateLimitHeaders (remaining resetAt : Int) : List (String × String) :=
  [("X-RateLimit-Remaining", toString remaining),
   ("X-RateLimit-Reset", toString (ceilDiv resetAt 1000))]

/-- The environment bindings the route consults. -/
structure EnvM where
  MCP_API_KEY : String
  bootstrapConfigured : Bool

/-- An inbound HTTP request to `/mcp`: its headers and the result of
`c.req.json()` (`none` models a body that fails to parse). -/
structure HttpRequestM where
  headers : List (String × String)
  body : Option MCPRequestM

/-- The observable HTTP response: status, JSON-RPC body, response headers. -/
structure HttpResponseM where
  status : Nat
  body : MCPResponseM
  headers : List (String × String)
deriving DecidableEq, Repr

/-- The `respond` helper of the `/mcp` route: emit the JSON body with the
status, attach `X-Correlation-ID` (`addCorrelationHeader`), then any extra
headers. -/
def respond (status : Nat) (body : MCPResponseM) (correlationId : String)
    (extraHeaders : Option (List (String × String))) : HttpResponseM :=
  ⟨status, body, ("X-Correlation-ID", correlationId) :: extraHeaders.getD []⟩

/-- Route `app.post('/mcp', ...)` from `index.ts` lines 738–834: derive the
request context (correlation id), authenticate `X-API-Key` with
`secureCompare` (short-circuiting to a 401 JSON-RPC error), check the
bootstrap token is configured (503), parse the body (-32700 on failure),
derive the rate-limit identity, dispatch to `handleMCPRequest`, and emit the
response with status 429 iff `rateLimitInfo?.limited`, attaching
`rateLimitHeaders` when rate-limit info is present.  The returned effect
trace records which pipeline stages ran. -/
def postMcp (req : HttpRequestM) (env : EnvM) (generatedCid : String)
    (store : KVStore) (now : Int) :
    HttpResponseM × KVStore × List PipeEffect :=
  let cid := getOrCreateCorrelationId req.headers generatedCid
  match truthyHeader (headerGet req.headers "X-API-Key") with
  | none =>
    (respond 401 ⟨none, .rpcError (-32000) "Unauthorized" cid⟩ cid none, store, [])
  | some apiKey =>
    if secureCompare apiKey env.MCP_API_KEY = false then
      (respond 401 ⟨none, .rpcError (-32000) "Unauthorized" cid⟩ cid none, store, [])
    else if env.bootstrapConfigured = false then
      (respond 503 ⟨none, .rpcError (-32000) "Bootstrap token not configured" cid⟩ cid none,
        store, [])
    else
      match req.body with
      | none =>
        (respond 200 ⟨none, .rpcError (-32700) "Parse error" cid⟩ cid none,
          store, [.bodyParsed])
      | some request =>
        let clientIp := mcpRateLimitIdentity req.headers
        match handleMCPRequest request clientIp cid store now with
        | (mcpResult, store', effects) =>
          let headers := mcpResult.rateLimitInfo.map
            (fun i => rateLimitHeaders i.remaining i.resetAt)
          let status : Nat :=
            match mcpResult.rateLimitInfo with
            | some i => if i.limited then 429 else 200
            | none => 200
          (respond status mcpResult.response cid headers, store', .bodyParsed :: effects)

/-- C3: An `/mcp` call whose `X-API-Key` header is absent (or empty,
which JS treats as absent) or fails `secureCompare` against the expected
secret gets a terminal HTTP 401 response carrying JSON-RPC error code
-32000 whose `data` holds the request's correlation id; the store is
untouched and no pipeline stage runs: the body is never parsed, no
validation, no rate limiter, no downstream call. -/
theorem c3_unauthenticated_short_circuits :
    ∀ (req : HttpRequestM) (env : EnvM) (generatedCid : String)
      (store : KVStore) (now : Int),
      (truthyHeader (headerGet req.headers "X-API-Key") = none ∨
        (∃ k, truthyHeader (headerGet req.headers "X-API-Key") = some k ∧
          secureCompare k env.MCP_API_KEY = false)) →
      postMcp req env generatedCid store now =
        (⟨401,
          ⟨none, .rpcError (-32000) "Unauthorized"
            (getOrCreateCorrelationId req.headers generatedCid)⟩,
          [("X-Correlation-ID", getOrCreateCorrelationId req.headers generatedCid)]⟩,
          store, []) := by
  intro req env generatedCid store now h
  rcases h with h | ⟨k, hk, hcmp⟩
  · unfold postMcp
    rw [h]
    rfl
  · unfold postMcp
    rw [hk]
    simp only []
    rw [if_pos hcmp]
    rfl

/-- Witness for C3: a concrete request presenting a wrong key (same length
as the secret) is rejected with the 401 shape, echoing the client-supplied
correlation id. -/
theorem c3_unauthenticated_short_circuits_witness :
    secureCompare "wrong" "right" = false ∧
    postMcp
      ⟨[("X-API-Key", "wrong"), ("X-Correlation-ID", "cid-7")],
        some ⟨some 1, "tools/call", some "create_token", none⟩⟩
      ⟨"right", true⟩ "gen-1" [] 0 =
      (⟨401, ⟨none, .rpcError (-32000) "Unauthorized" "cid-7"⟩,
        [("X-Correlation-ID", "cid-7")]⟩, [], []) := by
  refine ⟨rfl, ?_⟩
  have h := c3_unauthenticated_short_circuits
    ⟨[("X-API-Key", "wrong"), ("X-Correlation-ID", "cid-7")],
      some ⟨some 1, "tools/call", some "create_token", none⟩⟩
    ⟨"right", true⟩ "gen-1" [] 0
    (Or.inr ⟨"wrong", rfl, rfl⟩)
  exact h

/-- Counterexample to C8 as stated: an inbound `create_token` call with both
an explicit `X-Client-ID` and a `CF-Connecting-IP` is bucketed by the
IP — the `/mcp` route derives the rate-limit identity as `"1.2.3.4"` and the
run writes the window state under `ratelimit:token-ops:1.2.3.4` — even
though `getClientId` (never called on this path) would have preferred
`client:my-client`. -/
theorem c8_pipeline_ignores_client_id_cex :
    mcpRateLimitIdentity
      [("X-API-Key", "k"), ("X-Client-ID", "my-client"), ("CF-Connecting-IP", "1.2.3.4")] =
      "1.2.3.4" ∧
    getClientId
      [("X-API-Key", "k"), ("X-Client-ID", "my-client"), ("CF-Connecting-IP", "1.2.3.4")] =
      "client:my-client" ∧
    (postMcp
      ⟨[("X-API-Key", "k"), ("X-Client-ID", "my-client"), ("CF-Connecting-IP", "1.2.3.4")],
        some ⟨some 1, "tools/call", some "create_token",
          some (.obj [("type", .str "user"), ("name", .str "t")])⟩⟩
      ⟨"k", true⟩ "g" [] 0).2.1 =
      [(kvKey "token-ops" "1.2.3.4",
        { count := 1, timestamps := [0], version := 1 })] :=
  ⟨rfl, rfl, rfl⟩

/-- C8 (amended): Identity derivation never fails, but the two derivations
differ: `getClientId` prefers the `X-Client-ID` header (returning
`client:<id>`), falls back to `ip:<CF-Connecting-IP>`, and bottoms out at
`ip:unknown`; the `/mcp` pipeline, however, buckets the rate limiter by
`CF-Connecting-IP`, else `X-Forwarded-For`, else the literal `"unknown"`,
never consulting the client-supplied identity header. -/
theorem c8_identity_derivation :
    ∀ headers : List (String × String),
      (∀ id, truthyHeader (headerGet headers "X-Client-ID") = some id →
        getClientId headers = "client:" ++ id) ∧
      (truthyHeader (headerGet headers "X-Client-ID") = none →
        ∀ ip, truthyHeader (headerGet headers "CF-Connecting-IP") = some ip →
          getClientId headers = "ip:" ++ ip) ∧
      (truthyHeader (headerGet headers "X-Client-ID") = none →
        truthyHeader (headerGet headers "CF-Connecting-IP") = none →
        getClientId headers = "ip:unknown") ∧
      (∀ ip, truthyHeader (headerGet headers "CF-Connecting-IP") = some ip →
        mcpRateLimitIdentity headers = ip) ∧
      (truthyHeader (headerGet headers "CF-Connecting-IP") = none →
        ∀ ip, truthyHeader (headerGet headers "X-Forwarded-For") = some ip →
          mcpRateLimitIdentity headers = ip) ∧
      (truthyHeader (headerGet headers "CF-Connecting-IP") = none →
        truthyHeader (headerGet headers "X-Forwarded-For") = none →
        mcpRateLimitIdentity headers = "unknown") := by
  intro headers
  refine ⟨?_, ?_, ?_, ?_, ?_, ?_⟩
  · intro id h
    unfold getClientId
    rw [h]
  · intro h1 ip h2
    unfold getClientId
    rw [h1, h2]
  · intro h1 h2
    unfold getClientId
    rw [h1, h2]
    rfl
  · intro ip h
    unfold mcpRateLimitIdentity
    rw [h]
  · intro h1 ip h2
    unfold mcpRateLimitIdentity
    rw [h1, h2]
  · intro h1 h2
    unfold mcpRateLimitIdentity
    rw [h1, h2]

/-- Witness for C8 (amended) at concrete header lists. -/
theorem c8_identity_derivation_witness :
    getClientId [("X-Client-ID", "abc"), ("CF-Connecting-IP", "9.9.9.9")] = "client:abc" ∧
    getClientId [("CF-Connecting-IP", "9.9.9.9")] = "ip:9.9.9.9" ∧
    getClientId [] = "ip:unknown" ∧
    mcpRateLimitIdentity [("X-Client-ID", "abc"), ("CF-Connecting-IP", "9.9.9.9")] = "9.9.9.9" ∧
    mcpRateLimitIdentity [("X-Forwarded-For", "8.8.8.8")] = "8.8.8.8" ∧
    mcpRateLimitIdentity [] = "unknown" :=
  ⟨(c8_identity_derivation [("X-Client-ID", "abc"), ("CF-Connecting-IP", "9.9.9.9")]).1
      "abc" rfl,
   (c8_identity_derivation [("CF-Connecting-IP", "9.9.9.9")]).2.1 rfl "9.9.9.9" rfl,
   (c8_identity_derivation []).2.2.1 rfl rfl,
   (c8_identity_derivation [("X-Client-ID", "abc"), ("CF-Connecting-IP", "9.9.9.9")]).2.2.2.1
      "9.9.9.9" rfl,
   (c8_identity_derivation [("X-Forwarded-For", "8.8.8.8")]).2.2.2.2.1 rfl "8.8.8.8" rfl,
   (c8_identity_derivation []).2.2.2.2.2 rfl rfl⟩

/-- Run a sequence of `/mcp` calls (same request, env, generated id) at the
given instants, threading the KV store; collects the HTTP responses. -/
def runMcpCalls (req : HttpRequestM) (env : EnvM) (generatedCid : String)
    (times : List Int) (store : KVStore) : List HttpResponseM × KVStore :=
  match times with
  | [] => ([], store)
  | t :: ts =>
    match postMcp req env generatedCid store t with
    | (resp, store', _) =>
      let (rs, finalStore) := runMcpCalls req env generatedCid ts store'
      (resp :: rs, finalStore)

/-- The repeated mutating call of the C1 scenario: an authenticated
`tools/call` of `create_token` with valid arguments from identity
`1.2.3.4`. -/
def c1Request : HttpRequestM :=
  ⟨[("X-API-Key", "k"), ("CF-Connecting-IP", "1.2.3.4")],
    some ⟨some 1, "tools/call", some "create_token",
      some (.obj [("type", .str "user"), ("name", .str "t")])⟩⟩

/-- Eleven call instants inside one 60 s window. -/
def c1Times : List Int :=
  [0, 1000, 2000, 3000, 4000, 5000, 6000, 7000, 8000, 9000, 10000]

/-- The window state after the ten admitted calls of the C1 scenario. -/
def c1FinalStore : KVStore :=
  [(kvKey "token-ops" "1.2.3.4",
    { count := 10,
      timestamps := [0, 1000, 2000, 3000, 4000, 5000, 6000, 7000, 8000, 9000],
      version := 10 })]

/-- C1 (divergence): The 11th mutating call inside the window is indeed
rejected by the rate limiter, but the HTTP response is status **200 with no
`X-RateLimit-*` headers** — not the claimed 429 with
`X-RateLimit-Remaining: 0` and a positive `X-RateLimit-Reset`.  Root cause,
stated first in general form: the gate's thrown `RateLimitError` never
carries a correlation id while `handleMCPRequest` always supplies one, so
`categorizeError` rebuilds it as a *base* `McpError` and the
`categorized instanceof RateLimitError` test that would set
`rateLimitInfo` (and with it the 429 and the headers) can never pass.  All
eleven responses of the scenario come back 200 with only the correlation
header; the 11th is the error-result `"Error: Rate limit exceeded. Try
again in 50s"`. -/
theorem c1_rate_limited_call_gets_200_without_headers :
    (∀ (msg : String) (n : Int) (cid : String),
      (categorizeError (.mcpErr (mkRateLimitError msg (some n) none)) (some cid)).cls =
        ErrClass.base) ∧
    ((runMcpCalls c1Request ⟨"k", true⟩ "g" c1Times []).1.map
        (fun r => (r.status, r.headers)) =
      List.replicate 11 (200, [("X-Correlation-ID", "g")])) ∧
    ((runMcpCalls c1Request ⟨"k", true⟩ "g" c1Times []).1.getLast? =
      some ⟨200, ⟨some 1, .result true "Error: Rate limit exceeded. Try again in 50s"⟩,
        [("X-Correlation-ID", "g")]⟩) ∧
    (checkRateLimit "token-ops" "1.2.3.4" c1FinalStore false false 10000 =
      .ok ({ allowed := false, remaining := 0, resetAt := 60000 }, c1FinalStore)) ∧
    ((runMcpCalls c1Request ⟨"k", true⟩ "g" c1Times []).2 = c1FinalStore) := by
  refine ⟨fun msg n cid => rfl, ?_, ?_, rfl, ?_⟩
  · rfl
  · rfl
  · rfl
